import Mathlib

/-!
Verification of the open-object-classification-TLS pipeline core.

Shallow embedding of the Python sources:
  src/pipeline.py                                   (PipelineTLS orchestrator)
  src/location/grounding_dino_location.py           (GroundingDinoLocator)
  src/tagging/lvlm_llm_tagging/lvlm_description/llava_description.py
                                                    (LlavaDescriptor)

Modelling conventions:
  * Python dicts with significant insertion order (tag sets) are
    association lists `List (String × String)`.
  * Python floats are rationals `ℚ` (every literal appearing in the
    claims is exactly representable and order of the literals agrees).
  * Fallible code returns `Except`; exceptions are an error enum.
  * The file system is explicit state: an association list of files
    plus a list of existing directories.
-/

/-! ## Data model -/

/-- A tag set: Python dict mapping opaque string keys to label strings,
insertion order significant (modelled as an association list). -/
def TagSet := List (String × String)

instance : DecidableEq TagSet := by
  unfold TagSet
  infer_instance

/-- Bounding box of a detection candidate, pixel coordinates. -/
structure BBox where
  x_min : ℚ
  y_min : ℚ
  x_max : ℚ
  y_max : ℚ
deriving DecidableEq, Repr

/-- One detection candidate record, the shape produced by
`gdino_results_to_json` in grounding_dino_location.py. -/
structure DetectionCandidate where
  label : String
  score : ℚ
  bbox : BBox
deriving DecidableEq, Repr

/-! ## Location stage: prompt construction (grounding_dino_location.py)

Python source, `GroundingDinoLocator.json_to_gdino_prompt`:
    tags_list = [tag for tag in tags.values()]
    prompt = ". ".join(tags_list) + "."
-/

/-- Embedding of `GroundingDinoLocator.json_to_gdino_prompt`: the dict's
values in insertion order, joined with ". ", with a trailing ".". -/
def json_to_gdino_prompt (tags : TagSet) : String :=
  let tags_list := tags.map Prod.snd
  String.intercalate ". " tags_list ++ "."

/-! ## Location stage: confidence filter

Python source, `GroundingDinoLocator.filter_confidence`:
    filtered_results = [result for result in results if result["score"] > threshold]
and the constructor default `score_threshold: float = 0.3`.
-/

/-- Embedding of `GroundingDinoLocator.filter_confidence`: the list
comprehension keeping candidates whose score is strictly greater than
the threshold, in order. -/
def filter_confidence : List DetectionCandidate → ℚ → List DetectionCandidate
  | [], _ => []
  | r :: rest, threshold =>
      if r.score > threshold then r :: filter_confidence rest threshold
      else filter_confidence rest threshold

/-- Default `score_threshold` of `GroundingDinoLocator.__init__`. -/
def default_score_threshold : ℚ := 3 / 10

/-! ## Location stage: normalization of raw detector output

Python source, `GroundingDinoLocator.gdino_results_to_json`:
    scores = results.get("scores", torch.tensor([])).tolist()
    boxes = results.get("boxes", torch.tensor([])).tolist()
    labels = results.get("labels", [])
    result = []
    for label, bbox, score in zip(labels, boxes, scores):
        result.append({"label": label, "score": float(score),
                       "bbox": {"x_min": bbox[0], "y_min": bbox[1],
                                "x_max": bbox[2], "y_max": bbox[3]}})
Detector boxes are rows of an N×4 tensor, so each raw box is a
4-element list, modelled as a 4-tuple read positionally.
-/

/-- Raw detector output: a Python dict that may lack any of the three
parallel arrays (`dict.get` with an empty default). -/
structure RawResults where
  scores : Option (List ℚ)
  boxes : Option (List (ℚ × ℚ × ℚ × ℚ))
  labels : Option (List String)

/-- Python `zip` over three lists: truncates to the shortest. -/
def zip3 : List α → List β → List γ → List (α × β × γ)
  | a :: as, b :: bs, c :: cs => (a, b, c) :: zip3 as bs cs
  | _, _, _ => []

/-- Embedding of `GroundingDinoLocator.gdino_results_to_json`: absent
arrays default to empty, the three arrays are zipped (truncating to the
shortest), scores coerced to float (identity on our rational model), and
box coordinates read positionally as (x_min, y_min, x_max, y_max). -/
def gdino_results_to_json (results : RawResults) : List DetectionCandidate :=
  let scores := results.scores.getD []
  let boxes := results.boxes.getD []
  let labels := results.labels.getD []
  (zip3 labels boxes scores).map fun lbs =>
    { label := lbs.1
      score := lbs.2.2
      bbox := { x_min := lbs.2.1.1, y_min := lbs.2.1.2.1
                x_max := lbs.2.1.2.2.1, y_max := lbs.2.1.2.2.2 } }

/-! ## Pipeline orchestrator (pipeline.py)

The dispatch string constants of pipeline.py, then `PipelineTLS`.
`__init__` stores the configuration and constructs only the selected
collaborator objects (modelled as `Option` fields: `none` means the
attribute was never set).  The stage methods dispatch on the stored
strings; referencing an unset attribute is Python's AttributeError, and
referencing the unbound local `description_str` is an UnboundLocalError,
both modelled by the `PyError` enum.  The opaque model collaborators are
passed in as total functions.
-/

def RAM_PLUS : String := "[PIPELINE | TAGGING | RAM++]"

def LVLM_LLM : String := "[PIPELINE | TAGGING | DESCRIPTION & KEYWORD EXTRACTION]"

def LLAVA : String := "[PIPELINE | TAGGING | DESCRIPTION | LLAVA]"

def DEEPSEEK : String := "[PIPELINE | TAGGING | KEYWORD EXTRACTION | DEEPSEEK]"

def GROUNDING_DINO : String := "[PIPELINE | LOCATION | GDINO]"

def SAM2 : String := "[PIPELINE | SEGMENTATION | SAM2]"

/-- Constructor record of `RamPlusTagger(save_file=save_files)`. -/
structure RamPlusTagger where
  save_file : Bool
deriving DecidableEq, Repr

/-- Constructor record of `LlavaDescriptor(save_file=save_files)`. -/
structure LlavaDescriptorObj where
  save_file : Bool
deriving DecidableEq, Repr

/-- Constructor record of `DeepseekKeywordExtractor(save_file=save_files)`. -/
structure DeepseekKeywordExtractor where
  save_file : Bool
deriving DecidableEq, Repr

/-- Constructor record of
`GroundingDinoLocator(save_file_jpg=save_files, save_file_json=save_files)`. -/
structure GroundingDinoLocatorObj where
  save_file_jpg : Bool
  save_file_json : Bool
deriving DecidableEq, Repr

/-- Constructor record of `Sam2Segmenter()`. -/
structure Sam2Segmenter where
deriving DecidableEq, Repr

instance [DecidableEq ε] [DecidableEq α] : DecidableEq (Except ε α) :=
  fun a b =>
    match a, b with
    | .error x, .error y =>
        if h : x = y then isTrue (congrArg Except.error h)
        else isFalse (fun hc => h (Except.error.inj hc))
    | .ok x, .ok y =>
        if h : x = y then isTrue (congrArg Except.ok h)
        else isFalse (fun hc => h (Except.ok.inj hc))
    | .error _, .ok _ => isFalse (fun hc => Except.noConfusion hc)
    | .ok _, .error _ => isFalse (fun hc => Except.noConfusion hc)

/-- Python runtime exceptions reachable from the orchestrator's own
dispatch code (collaborator-internal failures are out of scope). -/
inductive PyError where
  | attributeError
  | unboundLocalError
deriving DecidableEq, Repr

/-- The opaque model collaborators as total functions: what each
wrapper's `load_*`/`run()` call chain computes. -/
structure Collaborators where
  ram_plus_tags : String → TagSet
  llava_description : String → String
  deepseek_tags : String → TagSet
  gdino_detections : String → TagSet → List DetectionCandidate
  sam2_masks : String → List DetectionCandidate → Unit

/-- State of a `PipelineTLS` object after `__init__`: the stored
configuration and the conditionally-constructed collaborator handles. -/
structure PipelineTLS where
  tagging_method : String
  tagging_submethods : String × String
  location_method : String
  segmentation_method : String
  save_files : Bool
  tagger_ram_plus : Option RamPlusTagger
  descriptor_llava : Option LlavaDescriptorObj
  extractor_deepseek : Option DeepseekKeywordExtractor
  locator_gdino : Option GroundingDinoLocatorObj
  segmenter_sam2 : Option Sam2Segmenter

/-- Embedding of `PipelineTLS.__init__`: stores the configuration and
constructs only the collaborators selected by it (the if/elif ladder of
pipeline.py lines 35-47). -/
def PipelineTLS.init (tagging_method : String)
    (tagging_submethods : String × String)
    (location_method segmentation_method : String)
    (save_files : Bool) : PipelineTLS :=
  let taggers :
      Option RamPlusTagger × Option LlavaDescriptorObj ×
        Option DeepseekKeywordExtractor :=
    if tagging_method = RAM_PLUS then
      (some { save_file := save_files }, none, none)
    else if tagging_method = LVLM_LLM then
      (none,
       if tagging_submethods.1 = LLAVA then
         some { save_file := save_files } else none,
       if tagging_submethods.2 = DEEPSEEK then
         some { save_file := save_files } else none)
    else (none, none, none)
  { tagging_method := tagging_method
    tagging_submethods := tagging_submethods
    location_method := location_method
    segmentation_method := segmentation_method
    save_files := save_files
    tagger_ram_plus := taggers.1
    descriptor_llava := taggers.2.1
    extractor_deepseek := taggers.2.2
    locator_gdino :=
      if location_method = GROUNDING_DINO then
        some { save_file_jpg := save_files, save_file_json := save_files }
      else none
    segmenter_sam2 :=
      if segmentation_method = SAM2 then some {} else none }

/-- Embedding of `PipelineTLS.tagging` (pipeline.py lines 51-69):
dispatch on the stored method strings; the fall-through is `return {}`.
In the LVLM_LLM branch the local `description_str` is bound only when
the first sub-method is LLAVA; the DEEPSEEK branch first looks up the
`extractor_deepseek` attribute, then evaluates `description_str`. -/
def PipelineTLS.tagging (p : PipelineTLS) (c : Collaborators)
    (input_image_name : String) : Except PyError TagSet :=
  if p.tagging_method = RAM_PLUS then
    match p.tagger_ram_plus with
    | some _ => .ok (c.ram_plus_tags input_image_name)
    | none => .error .attributeError
  else if p.tagging_method = LVLM_LLM then
    let stepA : Except PyError (Option String) :=
      if p.tagging_submethods.1 = LLAVA then
        match p.descriptor_llava with
        | some _ => .ok (some (c.llava_description input_image_name))
        | none => .error .attributeError
      else .ok none
    match stepA with
    | .error e => .error e
    | .ok description_str =>
        if p.tagging_submethods.2 = DEEPSEEK then
          match p.extractor_deepseek with
          | some _ =>
              match description_str with
              | some d => .ok (c.deepseek_tags d)
              | none => .error .unboundLocalError
          | none => .error .attributeError
        else .ok []
  else .ok []

/-- Embedding of `PipelineTLS.location` (pipeline.py lines 71-77);
the fall-through is `return {}`, modelled as the empty result. -/
def PipelineTLS.location (p : PipelineTLS) (c : Collaborators)
    (input_image_name : String) (input_tags : TagSet) :
    Except PyError (List DetectionCandidate) :=
  if p.location_method = GROUNDING_DINO then
    match p.locator_gdino with
    | some _ => .ok (c.gdino_detections input_image_name input_tags)
    | none => .error .attributeError
  else .ok []

/-- Embedding of `PipelineTLS.segmentation` (pipeline.py lines 79-84);
no return value. -/
def PipelineTLS.segmentation (p : PipelineTLS) (c : Collaborators)
    (input_image_name : String)
    (input_bbox_location : List DetectionCandidate) : Except PyError Unit :=
  if p.segmentation_method = SAM2 then
    match p.segmenter_sam2 with
    | some _ => .ok (c.sam2_masks input_image_name input_bbox_location)
    | none => .error .attributeError
  else .ok ()

/-- Observable trace of one `PipelineTLS.run`: each stage's output and
the arguments the next stage was invoked with. -/
structure RunLog where
  tagging_output : TagSet
  location_input_image : String
  location_input_tags : TagSet
  location_output : List DetectionCandidate
  segmentation_input_image : String
  segmentation_input_bbox : List DetectionCandidate
deriving DecidableEq

/-- Embedding of `PipelineTLS.run` (pipeline.py lines 86-98): reads the
clock (`start_time`), runs tagging, then location on tagging's output,
then segmentation on location's output, reads the clock again
(`end_time`) and returns the difference.  The two clock readings are
parameters; the log records the data handed between stages. -/
def PipelineTLS.run (p : PipelineTLS) (c : Collaborators)
    (input_image_name : String) (start_time end_time : ℚ) :
    Except PyError (ℚ × RunLog) := do
  let tagging_output ← p.tagging c input_image_name
  let location_output ← p.location c input_image_name tagging_output
  p.segmentation c input_image_name location_output
  pure (end_time - start_time,
    { tagging_output := tagging_output
      location_input_image := input_image_name
      location_input_tags := tagging_output
      location_output := location_output
      segmentation_input_image := input_image_name
      segmentation_input_bbox := location_output })

/-! ## Captioning collaborator generation loop (llava_description.py)

Python source, `LlavaDescriptor.run` lines 93-119:
    description = ""
    start_time = time.time()
    while time.time() - start_time < self.timeout:
        response = ollama.chat(...)
        description = response["message"]["content"]
        if description.strip():
            break
        else:
            print("... Trying again ...")
    else:
        raise TimeoutError(...)
The loop is modelled on a trace: one `(clock reading, model response)`
pair per iteration — the reading is what `time.time()` returns at the
`while` check, the response is what `ollama.chat` would return if the
check passes.  An exhausted trace (`[]`) means the Python loop is still
running, modelled as `none`.
-/

/-- Python `str.strip()`: drop leading and trailing whitespace. -/
def pystrip (s : String) : String :=
  String.mk
    (((s.data.dropWhile Char.isWhitespace).reverse.dropWhile
        Char.isWhitespace).reverse)

/-- Embedding of the retry loop of `LlavaDescriptor.run`: before each
attempt the elapsed time is checked against the timeout; on timeout a
`TimeoutError` is raised; a response that is non-empty after stripping
breaks the loop and is returned; an empty one retries immediately. -/
def llava_generate (timeout start_time : ℚ) :
    List (ℚ × String) → Option (Except Unit String)
  | [] => none
  | (now, response) :: rest =>
      if now - start_time < timeout then
        if pystrip response ≠ "" then some (.ok response)
        else llava_generate timeout start_time rest
      else some (.error ())

/-! ## Tag-source resolution (grounding_dino_location.py)

Python source, `GroundingDinoLocator.read_input_tags` lines 91-118:
    json_files = [os.path.join(input_tags_dir, f)
                  for f in os.listdir(input_tags_dir) if f.endswith(".json")]
    if not json_files:
        raise FileNotFoundError(...)
    latest_json_path = max(json_files, key=os.path.getmtime)
    ...
    return tags_content, filename
-/

/-- Python `str.endswith`: suffix test on the character sequence. -/
def endswith (s suf : String) : Bool :=
  suf.data.isSuffixOf s.data

/-- A directory entry as `read_input_tags` sees it: a file name, its
modification time, and the tag dictionary its JSON contents parse to. -/
structure DirEntry where
  name : String
  mtime : ℚ
  content : TagSet
deriving DecidableEq

/-- Python `max(..., key=mtime)`: folds left, keeping the current
element unless a later one is strictly greater — ties keep the earliest. -/
def max_by_mtime (a : DirEntry) : List DirEntry → DirEntry
  | [] => a
  | b :: rest => max_by_mtime (if b.mtime > a.mtime then b else a) rest

/-- Embedding of `GroundingDinoLocator.read_input_tags`: filter the
directory listing to names ending in ".json", raise FileNotFoundError
if none remain, otherwise return the content and name of the most
recently modified one. -/
def read_input_tags (entries : List DirEntry) :
    Except Unit (TagSet × String) :=
  let json_files := entries.filter (fun e => endswith e.name ".json")
  match json_files with
  | [] => .error ()
  | f :: rest =>
      let latest := max_by_mtime f rest
      .ok (latest.content, latest.name)

/-! ## File-system model for the artifact-naming claims

Paths are strings; the state is the set of existing files (with their
contents) and directories.  `write_file` is Python `open(path, "w")`
followed by a full write: it replaces any previous content at that path
silently.
-/

/-- Explicit file-system state: files as path-content pairs (most
recent write first) plus the set of existing directories. -/
structure FileSystem where
  files : List (String × String)
  dirs : List String
deriving DecidableEq

/-- Python `os.path.exists`: true for an existing directory or file. -/
def path_exists (fs : FileSystem) (p : String) : Bool :=
  fs.dirs.contains p || (fs.files.map Prod.fst).contains p

/-- Python `open(p, "w")` + write: silently replaces previous content. -/
def write_file (fs : FileSystem) (p content : String) : FileSystem :=
  { fs with files := (p, content) :: fs.files.filter (fun e => e.1 != p) }

/-- Content at a path, if a file exists there. -/
def read_file (fs : FileSystem) (p : String) : Option String :=
  (fs.files.find? (fun e => e.1 == p)).map Prod.snd

/-- Python `os.makedirs(p)`: records the directory as existing. -/
def makedirs (fs : FileSystem) (p : String) : FileSystem :=
  { fs with dirs := p :: fs.dirs }

/-! ## Location-stage artifact naming (grounding_dino_location.py)

Python source, `GroundingDinoLocator.__init__` lines 75-89: the
timestamp is taken once, when the locator is constructed, and the two
output paths are fixed from it:
    timestamp = time.strftime("%Y-%m-%d_%H-%M-%S")
    output_filename_json = f"location_gdino_{timestamp}.json"
    output_filename_jpg = f"location_gdino_{timestamp}.jpg"
`locate_objects` (lines 220-232) later opens exactly those stored paths
for writing, with no existence check.
-/

/-- The two output paths a `GroundingDinoLocator` stores at
construction. -/
structure LocatorOutputFiles where
  output_file_json : String
  output_file_jpg : String
deriving DecidableEq

/-- Embedding of the output-path preparation in
`GroundingDinoLocator.__init__`, given the `time.strftime` reading taken
there.  No file-system state is consulted: the names are the bare
timestamp names. -/
def gdino_init_output_files (timestamp : String) : LocatorOutputFiles :=
  { output_file_json := "output_location/location_gdino_" ++ timestamp ++ ".json"
    output_file_jpg := "output_location/location_gdino_" ++ timestamp ++ ".jpg" }

/-- Embedding of the persistence step of
`GroundingDinoLocator.locate_objects` (both save flags on): write the
JSON results, then the annotated image, to the paths stored at
construction.  `write_time` is the wall-clock second during which the
writes complete; the code never reads the clock here, so the parameter
is unused — which is exactly the observable fact at issue in C6. -/
def locate_objects_save (l : LocatorOutputFiles) (fs : FileSystem)
    (_write_time json_content jpg_content : String) : FileSystem :=
  write_file (write_file fs l.output_file_json json_content)
    l.output_file_jpg jpg_content

/-! ## Description-stage artifact naming (llava_description.py)

Python source, `LlavaDescriptor.run` lines 72-91 and 125-133:
    timestamp = time.strftime("%Y-%m-%d_%H-%M-%S")
    base_output_timestamped_descriptions_dir = os.path.join(
        self.output_descriptions_dir, f"description_llava_{timestamp}")
    output_timestamped_descriptions_dir = base_...
    counter = 1
    while os.path.exists(output_timestamped_descriptions_dir):
        output_timestamped_descriptions_dir = f"{base_...}_{counter}"
        counter += 1
    os.makedirs(output_timestamped_descriptions_dir)
    ...
    output_filename = f"description_llava_{timestamp}.txt"
    output_file = os.path.join(self.output_descriptions_dir, output_filename)
    with open(output_file, "w", encoding="utf-8") as f:
        f.write(description)
-/

/-- The collision-avoidance `while` loop: try `base_1`, `base_2`, … in
turn until a non-existing path is found.  The Python loop is unbounded;
`fuel` bounds the recursion and always suffices when it exceeds the
number of existing paths. -/
def uniquify_from (fs : FileSystem) (base : String) :
    Nat → Nat → String
  | 0, counter => base ++ "_" ++ toString counter
  | fuel + 1, counter =>
      let candidate := base ++ "_" ++ toString counter
      if path_exists fs candidate then
        uniquify_from fs base fuel (counter + 1)
      else candidate

/-- The unique name the loop of `LlavaDescriptor.run` settles on: the
base path itself if free, else the first free suffixed path. -/
def uniquify (fs : FileSystem) (base : String) : String :=
  if path_exists fs base then
    uniquify_from fs base (fs.dirs.length + fs.files.length + 1) 1
  else base

/-- Embedding of the artifact-writing part of `LlavaDescriptor.run`
with `save_file` on: compute the collision-avoided unique directory
name from the timestamp taken at the start of `run`, create that
directory — and then write the description to the bare timestamped
`.txt` path in the parent directory.  Returns the new file system, the
unique directory the loop produced, and the path the description was
actually written to. -/
def llava_run_save (timestamp : String) (fs : FileSystem)
    (description : String) : FileSystem × String × String :=
  let base := "output_descriptions/description_llava_" ++ timestamp
  let unique_dir := uniquify fs base
  let fs1 := makedirs fs unique_dir
  let output_file :=
    "output_descriptions/description_llava_" ++ timestamp ++ ".txt"
  (write_file fs1 output_file description, unique_dir, output_file)

def demo_collab : Collaborators where
  ram_plus_tags := fun _ => [("0", "cup")]
  llava_description := fun _ => "a cup on a table"
  deepseek_tags := fun _ => [("0", "cup")]
  gdino_detections := fun _ _ => [⟨"cup", 1, ⟨0, 0, 1, 1⟩⟩]
  sam2_masks := fun _ _ => ()

/-- A fully selected pipeline configuration used in the C4 witness. -/
def demo_pipeline : PipelineTLS :=
  PipelineTLS.init RAM_PLUS (LLAVA, DEEPSEEK) GROUNDING_DINO SAM2 true

/-- Run log produced by `demo_pipeline` on image "desk.jpg". -/
def demo_log : RunLog where
  tagging_output := [("0", "cup")]
  location_input_image := "desk.jpg"
  location_input_tags := [("0", "cup")]
  location_output := [⟨"cup", 1, ⟨0, 0, 1, 1⟩⟩]
  segmentation_input_image := "desk.jpg"
  segmentation_input_bbox := [⟨"cup", 1, ⟨0, 0, 1, 1⟩⟩]

/-! ## Theorems for C1 -/

/-- C1: for every tag set the prompt builder returns the tag values in
insertion order joined by ". " with a trailing "." appended; in
particular the two-tag set yields "cup. table." and the empty tag set
yields ".". -/
theorem C1_prompt_builder :
    (∀ tags : TagSet,
      json_to_gdino_prompt tags =
        String.intercalate ". " (tags.map Prod.snd) ++ ".") ∧
    json_to_gdino_prompt [("0", "cup"), ("1", "table")] = "cup. table." ∧
    json_to_gdino_prompt ([] : TagSet) = "." := by
  refine ⟨fun tags => rfl, ?_, ?_⟩ <;> rfl

/-! ## Theorems for C2 -/

/-- The comprehension in `filter_confidence` is `List.filter` with the
strict comparison. -/
theorem filter_confidence_eq_filter (res : List DetectionCandidate) (t : ℚ) :
    filter_confidence res t = res.filter (fun c => decide (t < c.score)) := by
  induction res with
  | nil => rfl
  | cons r rest ih =>
      by_cases h : t < r.score <;>
        simp [filter_confidence, List.filter, gt_iff_lt, h, ih]

/-- C2: for every candidate list and threshold, the confidence filter
keeps exactly the candidates with score strictly greater than the
threshold (equality is excluded), preserving relative order (the output
is a sublist of the input); the default threshold is 3/10, and from
scores 29/100, 30/100, 31/100 at threshold 30/100 only the last
candidate survives. -/
theorem C2_confidence_filter :
    (∀ (res : List DetectionCandidate) (t : ℚ),
      filter_confidence res t = res.filter (fun c => decide (t < c.score)) ∧
      (filter_confidence res t).Sublist res ∧
      (∀ c, c ∈ filter_confidence res t ↔ c ∈ res ∧ t < c.score)) ∧
    default_score_threshold = 3 / 10 ∧
    (∀ b : BBox,
      filter_confidence
        [⟨"a", 29/100, b⟩, ⟨"b", 30/100, b⟩, ⟨"c", 31/100, b⟩] (30/100) =
        [⟨"c", 31/100, b⟩]) := by
  refine ⟨fun res t => ⟨filter_confidence_eq_filter res t, ?_, ?_⟩, rfl, ?_⟩
  · rw [filter_confidence_eq_filter]
    exact List.filter_sublist res
  · intro c
    rw [filter_confidence_eq_filter]
    simp [List.mem_filter]
  · intro b
    simp [filter_confidence]
    norm_num

/-! ## Theorems for C3 -/

/-- Length of Python `zip` over three lists: the minimum of the three
lengths. -/
theorem zip3_length (as : List α) (bs : List β) (cs : List γ) :
    (zip3 as bs cs).length = min as.length (min bs.length cs.length) := by
  induction as generalizing bs cs with
  | nil => simp [zip3]
  | cons a as ih =>
      cases bs with
      | nil => simp [zip3]
      | cons b bs =>
          cases cs with
          | nil => simp [zip3]
          | cons c cs =>
              simp only [zip3, List.length_cons, ih]
              omega

/-- C3: normalization zips labels, boxes and scores truncating to the
shortest array (an absent array counting as empty), box coordinates read
positionally; raw arrays of 3 labels, 2 boxes, 3 scores yield exactly
the 2 candidates assembled from the first two positions. -/
theorem C3_normalization :
    (∀ results : RawResults,
      (gdino_results_to_json results).length =
        min (results.labels.getD []).length
          (min (results.boxes.getD []).length
            (results.scores.getD []).length)) ∧
    (∀ scores boxes,
      gdino_results_to_json ⟨scores, boxes, none⟩ = []) ∧
    gdino_results_to_json
      ⟨some [1/2, 3/5, 7/10],
       some [(1, 2, 3, 4), (5, 6, 7, 8)],
       some ["cup", "table", "chair"]⟩ =
      [⟨"cup", 1/2, ⟨1, 2, 3, 4⟩⟩, ⟨"table", 3/5, ⟨5, 6, 7, 8⟩⟩] := by
  refine ⟨fun results => ?_, fun scores boxes => ?_, rfl⟩
  · simp [gdino_results_to_json, zip3_length]
  · simp [gdino_results_to_json, zip3]

/-! ## Theorems for C4, C5, C10 -/

/-- C4: whenever `run` succeeds, the tagging stage's output is exactly
the tag input passed to the location stage, the location stage's output
is exactly the box input passed to the segmentation stage, each stage's
recorded output is what that stage computes on those exact inputs (no
mutation in between), and the returned value is the difference of the
two clock readings — the wall-clock duration, not the pipeline result. -/
theorem C4_run_sequencing (p : PipelineTLS) (c : Collaborators)
    (img : String) (t0 t1 ret : ℚ) (log : RunLog)
    (h : p.run c img t0 t1 = .ok (ret, log)) :
    ret = t1 - t0 ∧
    p.tagging c img = .ok log.tagging_output ∧
    log.location_input_tags = log.tagging_output ∧
    log.location_input_image = img ∧
    p.location c img log.location_input_tags = .ok log.location_output ∧
    log.segmentation_input_bbox = log.location_output ∧
    log.segmentation_input_image = img ∧
    p.segmentation c img log.segmentation_input_bbox = .ok () := by
  unfold PipelineTLS.run at h
  cases htag : p.tagging c img with
  | error e => rw [htag] at h; simp [Bind.bind, Except.bind] at h
  | ok tags =>
      rw [htag] at h
      simp only [Bind.bind, Except.bind] at h
      cases hloc : p.location c img tags with
      | error e => rw [hloc] at h; simp [Except.bind] at h
      | ok dets =>
          rw [hloc] at h
          simp only [Except.bind] at h
          cases hseg : p.segmentation c img dets with
          | error e => rw [hseg] at h; simp [Except.bind] at h
          | ok u =>
              rw [hseg] at h
              simp only [Except.bind, pure, Except.pure,
                Except.ok.injEq, Prod.mk.injEq] at h
              obtain ⟨hret, hlog⟩ := h
              subst hlog
              exact ⟨hret.symm, rfl, rfl, rfl, hloc, rfl, rfl,
                by cases u; exact hseg⟩

/-- Trivial collaborator functions used to instantiate witnesses. -/
theorem C4_run_sequencing_witness :
    (5 : ℚ) - 2 = 5 - 2 ∧
    demo_pipeline.tagging demo_collab "desk.jpg" =
      .ok demo_log.tagging_output ∧
    demo_log.location_input_tags = demo_log.tagging_output ∧
    demo_log.location_input_image = "desk.jpg" ∧
    demo_pipeline.location demo_collab "desk.jpg"
      demo_log.location_input_tags = .ok demo_log.location_output ∧
    demo_log.segmentation_input_bbox = demo_log.location_output ∧
    demo_log.segmentation_input_image = "desk.jpg" ∧
    demo_pipeline.segmentation demo_collab "desk.jpg"
      demo_log.segmentation_input_bbox = .ok () :=
  C4_run_sequencing demo_pipeline demo_collab "desk.jpg" 2 5 (5 - 2) demo_log
    (by rfl)

/-- C5: `__init__` constructs exactly the collaborators the
configuration selects: each handle is set iff its method string is
chosen; in particular with the RAM++ method the Describe-then-Extract
collaborators are not constructed, and with the Describe-then-Extract
method the direct RAM++ tagger is not constructed. -/
theorem C5_lazy_construction :
    (∀ (tm : String) (sub : String × String) (lm sm : String) (sf : Bool),
      ((PipelineTLS.init tm sub lm sm sf).tagger_ram_plus ≠ none ↔
        tm = RAM_PLUS) ∧
      ((PipelineTLS.init tm sub lm sm sf).descriptor_llava ≠ none ↔
        tm = LVLM_LLM ∧ sub.1 = LLAVA) ∧
      ((PipelineTLS.init tm sub lm sm sf).extractor_deepseek ≠ none ↔
        tm = LVLM_LLM ∧ sub.2 = DEEPSEEK) ∧
      ((PipelineTLS.init tm sub lm sm sf).locator_gdino ≠ none ↔
        lm = GROUNDING_DINO) ∧
      ((PipelineTLS.init tm sub lm sm sf).segmenter_sam2 ≠ none ↔
        sm = SAM2)) ∧
    (∀ (sub : String × String) (lm sm : String) (sf : Bool),
      (PipelineTLS.init RAM_PLUS sub lm sm sf).descriptor_llava = none ∧
      (PipelineTLS.init RAM_PLUS sub lm sm sf).extractor_deepseek = none ∧
      (PipelineTLS.init LVLM_LLM sub lm sm sf).tagger_ram_plus = none) := by
  have hne : RAM_PLUS ≠ LVLM_LLM := by decide
  constructor
  · intro tm sub lm sm sf
    refine ⟨?_, ?_, ?_, ?_, ?_⟩ <;>
      simp only [PipelineTLS.init] <;> split_ifs <;>
        simp_all
  · intro sub lm sm sf
    refine ⟨?_, ?_, ?_⟩ <;> simp [PipelineTLS.init, hne, hne.symm]

/-- C10: for every tagging-method string matching no known variant the
tagging dispatch returns the empty dict without raising, and likewise
for the Describe-then-Extract variant when the second sub-method is not
the DEEPSEEK extractor. -/
theorem C10_unknown_method_empty_dict :
    ∀ (tm : String) (sub : String × String) (lm sm : String) (sf : Bool)
      (c : Collaborators) (img : String),
      (tm ≠ RAM_PLUS → tm ≠ LVLM_LLM →
        (PipelineTLS.init tm sub lm sm sf).tagging c img = .ok []) ∧
      (sub.2 ≠ DEEPSEEK →
        (PipelineTLS.init LVLM_LLM sub lm sm sf).tagging c img = .ok []) := by
  intro tm sub lm sm sf c img
  have hne : ¬ LVLM_LLM = RAM_PLUS := by decide
  constructor
  · intro h1 h2
    simp [PipelineTLS.tagging, PipelineTLS.init, h1, h2]
  · intro h2
    by_cases hA : sub.1 = LLAVA <;>
      simp [PipelineTLS.tagging, PipelineTLS.init, hne, hA, h2]

/-! ## Theorems for C8 -/

/-- C8: the captioning loop checks elapsed time against the timeout
before each attempt and raises on timeout with no partial result; an
in-time attempt returning non-empty (after stripping) text is returned
at once, an in-time empty attempt retries immediately; hence every
successful return is a non-empty description. -/
theorem C8_generation_retry_loop :
    (∀ (timeout start : ℚ) (trace : List (ℚ × String)) (d : String),
      llava_generate timeout start trace = some (.ok d) →
      pystrip d ≠ "" ∧ d ≠ "") ∧
    (∀ (timeout start now : ℚ) (response : String)
        (rest : List (ℚ × String)),
      ¬ now - start < timeout →
      llava_generate timeout start ((now, response) :: rest) =
        some (.error ())) ∧
    (∀ (timeout start now : ℚ) (response : String)
        (rest : List (ℚ × String)),
      now - start < timeout → pystrip response ≠ "" →
      llava_generate timeout start ((now, response) :: rest) =
        some (.ok response)) ∧
    (∀ (timeout start now : ℚ) (response : String)
        (rest : List (ℚ × String)),
      now - start < timeout → pystrip response = "" →
      llava_generate timeout start ((now, response) :: rest) =
        llava_generate timeout start rest) := by
  refine ⟨fun timeout start trace => ?_, fun timeout start now r rest h => ?_,
    fun timeout start now r rest h hs => ?_,
    fun timeout start now r rest h hs => ?_⟩
  · induction trace with
    | nil => intro d h; simp [llava_generate] at h
    | cons p rest ih =>
        intro d h
        obtain ⟨now, response⟩ := p
        rw [llava_generate] at h
        split_ifs at h with h1 h2
        · rw [Option.some.injEq, Except.ok.injEq] at h
          subst h
          refine ⟨h2, fun he => h2 ?_⟩
          rw [he]
          rfl
        · exact ih d h
        · simp at h
  · simp [llava_generate, h]
  · simp [llava_generate, h, hs]
  · simp [llava_generate, h, hs]

theorem C8_generation_retry_loop_witness :
    (pystrip "a cup on a table" ≠ "" ∧ "a cup on a table" ≠ "") ∧
    llava_generate 1200 0 [(1250, "late")] = some (.error ()) ∧
    llava_generate 1200 0 [(30, "a cup on a table")] =
      some (.ok "a cup on a table") ∧
    llava_generate 1200 0 [(30, " "), (60, "a cup on a table")] =
      llava_generate 1200 0 [(60, "a cup on a table")] :=
  ⟨C8_generation_retry_loop.1 1200 0 [(30, "a cup on a table")]
      "a cup on a table"
      (by rw [llava_generate,
              if_pos (show (30 : ℚ) - 0 < 1200 by norm_num)]
          decide),
   C8_generation_retry_loop.2.1 1200 0 1250 "late" [] (by norm_num),
   C8_generation_retry_loop.2.2.1 1200 0 30 "a cup on a table" []
      (by norm_num) (by decide),
   C8_generation_retry_loop.2.2.2 1200 0 30 " " [(60, "a cup on a table")]
      (by norm_num) (by decide)⟩

/-! ## Theorems for C9 -/

/-- The element Python `max(..., key=mtime)` picks is one of the
candidates. -/
theorem max_by_mtime_mem (a : DirEntry) (l : List DirEntry) :
    max_by_mtime a l = a ∨ max_by_mtime a l ∈ l := by
  induction l generalizing a with
  | nil => exact Or.inl rfl
  | cons b rest ih =>
      rw [max_by_mtime]
      rcases ih (if b.mtime > a.mtime then b else a) with h | h
      · rw [h]
        split_ifs with hb
        · exact Or.inr (List.mem_cons_self b rest)
        · exact Or.inl rfl
      · exact Or.inr (List.mem_cons_of_mem b h)

/-- Every candidate's modification time is at most the picked one's. -/
theorem max_by_mtime_le (a : DirEntry) (l : List DirEntry) :
    ∀ x ∈ a :: l, x.mtime ≤ (max_by_mtime a l).mtime := by
  induction l generalizing a with
  | nil =>
      intro x hx
      rw [List.mem_singleton] at hx
      rw [hx, max_by_mtime]
  | cons b rest ih =>
      intro x hx
      rw [max_by_mtime]
      have hbase : a.mtime ≤ (if b.mtime > a.mtime then b else a).mtime := by
        split_ifs with hb
        · exact le_of_lt hb
        · exact le_refl _
      have hstep := ih (if b.mtime > a.mtime then b else a)
      have hhead := hstep _ (List.mem_cons_self _ rest)
      rcases List.mem_cons.mp hx with hxa | hx2
      · rw [hxa]
        exact le_trans hbase hhead
      · rcases List.mem_cons.mp hx2 with hxb | hxr
        · rw [hxb]
          refine le_trans ?_ hhead
          split_ifs with hb
          · exact le_refl _
          · exact le_of_not_lt hb
        · exact hstep x (List.mem_cons_of_mem _ hxr)

/-- C9: tag-source resolution filters the directory to ".json" names
and raises FileNotFoundError exactly when none remain; a successful
resolution returns the content and name of a listed ".json" entry whose
modification time is maximal; concretely, with times 1 < 2 < 3 the
mtime-3 file is selected. -/
theorem C9_latest_tag_file :
    (∀ entries : List DirEntry,
      read_input_tags entries = .error () ↔
        entries.filter (fun e => endswith e.name ".json") = []) ∧
    (∀ (entries : List DirEntry) (tags : TagSet) (name : String),
      read_input_tags entries = .ok (tags, name) →
      ∃ e ∈ entries.filter (fun e => endswith e.name ".json"),
        e.name = name ∧ e.content = tags ∧
        ∀ f ∈ entries.filter (fun e => endswith e.name ".json"),
          f.mtime ≤ e.mtime) ∧
    read_input_tags
      [⟨"a.json", 1, [("0", "cup")]⟩, ⟨"notes.txt", 99, []⟩,
       ⟨"b.json", 2, [("0", "table")]⟩, ⟨"c.json", 3, [("0", "chair")]⟩] =
      .ok ([("0", "chair")], "c.json") ∧
    read_input_tags [⟨"notes.txt", 1, []⟩] = .error () ∧
    read_input_tags [] = .error () := by
  refine ⟨fun entries => ?_, fun entries tags name h => ?_, ?_, ?_, ?_⟩
  · rw [read_input_tags]
    cases hf : entries.filter (fun e => endswith e.name ".json") with
    | nil => simp
    | cons f rest => simp
  · rw [read_input_tags] at h
    cases hf : entries.filter (fun e => endswith e.name ".json") with
    | nil => rw [hf] at h; simp at h
    | cons f rest =>
        rw [hf] at h
        rw [Except.ok.injEq, Prod.mk.injEq] at h
        refine ⟨max_by_mtime f rest, ?_, h.2, h.1, ?_⟩
        · rcases max_by_mtime_mem f rest with hm | hm
          · rw [hm]; exact List.mem_cons_self f rest
          · exact List.mem_cons_of_mem f hm
        · exact max_by_mtime_le f rest
  · decide
  · decide
  · decide

theorem C9_latest_tag_file_witness :
    ∃ e ∈ List.filter (fun e => endswith e.name ".json")
        [⟨"a.json", 1, [("0", "cup")]⟩, ⟨"notes.txt", 99, []⟩,
         ⟨"b.json", 2, [("0", "table")]⟩,
         (⟨"c.json", 3, [("0", "chair")]⟩ : DirEntry)],
      e.name = "c.json" ∧ e.content = [("0", "chair")] ∧
      ∀ f ∈ List.filter (fun e => endswith e.name ".json")
          [⟨"a.json", 1, [("0", "cup")]⟩, ⟨"notes.txt", 99, []⟩,
           ⟨"b.json", 2, [("0", "table")]⟩,
           (⟨"c.json", 3, [("0", "chair")]⟩ : DirEntry)],
        f.mtime ≤ e.mtime :=
  C9_latest_tag_file.2.1
    [⟨"a.json", 1, [("0", "cup")]⟩, ⟨"notes.txt", 99, []⟩,
     ⟨"b.json", 2, [("0", "table")]⟩, ⟨"c.json", 3, [("0", "chair")]⟩]
    [("0", "chair")] "c.json" (by decide)

theorem C10_unknown_method_empty_dict_witness :
    (PipelineTLS.init "bogus" (LLAVA, DEEPSEEK) GROUNDING_DINO SAM2 false).tagging
        demo_collab "desk.jpg" = .ok [] ∧
    (PipelineTLS.init LVLM_LLM (LLAVA, "bogus") GROUNDING_DINO SAM2 false).tagging
        demo_collab "desk.jpg" = .ok [] :=
  ⟨(C10_unknown_method_empty_dict "bogus" (LLAVA, DEEPSEEK) GROUNDING_DINO SAM2
      false demo_collab "desk.jpg").1 (by decide) (by decide),
   (C10_unknown_method_empty_dict LVLM_LLM (LLAVA, "bogus") GROUNDING_DINO SAM2
      false demo_collab "desk.jpg").2 (by decide)⟩

/-! ## Theorems for C6 -/

/-- Two strings differing only in the suffixes ".json" and ".jpg" are
distinct (their character counts differ). -/
theorem append_json_ne_jpg (a b : String) :
    a ++ b ++ ".json" ≠ a ++ b ++ ".jpg" := by
  intro h
  have h2 := congrArg (fun t => t.data.length) h
  have e1 : (".json" : String).data.length = 5 := by decide
  have e2 : (".jpg" : String).data.length = 4 := by decide
  simp only [String.data_append, List.length_append] at h2
  rw [e1, e2] at h2
  omega

/-- Reading back a path just written yields the written content. -/
theorem read_write_same (fs : FileSystem) (p c : String) :
    read_file (write_file fs p c) p = some c := by
  simp [read_file, write_file, List.find?]

/-- Filtering out entries at path `p` does not change lookup at a
different path `q`. -/
theorem find_filter_ne (l : List (String × String)) (p q : String)
    (h : q ≠ p) :
    (l.filter (fun e => e.1 != p)).find? (fun e => e.1 == q) =
      l.find? (fun e => e.1 == q) := by
  have hpq : (p == q) = false := by
    rw [beq_eq_false_iff_ne]; exact fun he => h he.symm
  induction l with
  | nil => rfl
  | cons a l ih =>
      by_cases hp : a.1 = p
      · have hq : (a.1 == q) = false := by
          rw [beq_eq_false_iff_ne, hp]
          exact fun he => h he.symm
        simp [List.filter_cons, List.find?_cons, hp, hq, hpq, ih]
      · have hp2 : (a.1 != p) = true := by
          simp [bne, hp]
        by_cases hq : a.1 = q
        · simp [List.filter_cons, List.find?_cons, hp2, hq, h]
        · have hq2 : (a.1 == q) = false := by
            rw [beq_eq_false_iff_ne]; exact hq
          simp [List.filter_cons, List.find?_cons, hp2, hq2, h, ih]

/-- Writing at one path does not change the content read at another. -/
theorem read_write_other (fs : FileSystem) (p q c : String) (h : q ≠ p) :
    read_file (write_file fs p c) q = read_file fs q := by
  have hpq : (p == q) = false := by
    rw [beq_eq_false_iff_ne]; exact fun he => h he.symm
  simp only [read_file, write_file, List.find?_cons, hpq]
  rw [find_filter_ne fs.files p q h]

/-- C6 counterexample to the claim as stated: two location-stage writes
that both complete during the same wall-clock second do NOT overwrite
each other when the two locators were constructed in different seconds,
because the artifact paths carry the construction-time timestamp, not a
timestamp taken at write time. -/
theorem C6_write_time_counterexample :
    (gdino_init_output_files "2025-01-01_00-00-01").output_file_json ≠
      "output_location/location_gdino_2025-01-01_00-00-09.json" ∧
    read_file
      (locate_objects_save (gdino_init_output_files "2025-01-01_00-00-02")
        (locate_objects_save (gdino_init_output_files "2025-01-01_00-00-01")
          ⟨[], []⟩ "2025-01-01_00-00-09" "jsonA" "jpgA")
        "2025-01-01_00-00-09" "jsonB" "jpgB")
      (gdino_init_output_files "2025-01-01_00-00-01").output_file_json =
      some "jsonA" ∧
    read_file
      (locate_objects_save (gdino_init_output_files "2025-01-01_00-00-02")
        (locate_objects_save (gdino_init_output_files "2025-01-01_00-00-01")
          ⟨[], []⟩ "2025-01-01_00-00-09" "jsonA" "jpgA")
        "2025-01-01_00-00-09" "jsonB" "jpgB")
      (gdino_init_output_files "2025-01-01_00-00-02").output_file_json =
      some "jsonB" := by
  refine ⟨by decide, by decide, by decide⟩

/-- C6 as amended: the artifact paths are the bare construction-time
timestamp names fixed in `__init__` with no collision-avoidance, and
repeated writes through locators sharing a construction timestamp
target identical paths, the later silently overwriting the earlier,
whatever the write times. -/
theorem C6_construction_time_naming :
    ∀ (ts wt1 wt2 jc1 pc1 jc2 pc2 : String) (fs : FileSystem),
      (gdino_init_output_files ts).output_file_json =
        "output_location/location_gdino_" ++ ts ++ ".json" ∧
      (gdino_init_output_files ts).output_file_jpg =
        "output_location/location_gdino_" ++ ts ++ ".jpg" ∧
      read_file
        (locate_objects_save (gdino_init_output_files ts)
          (locate_objects_save (gdino_init_output_files ts) fs wt1 jc1 pc1)
          wt2 jc2 pc2)
        (gdino_init_output_files ts).output_file_json = some jc2 ∧
      read_file
        (locate_objects_save (gdino_init_output_files ts)
          (locate_objects_save (gdino_init_output_files ts) fs wt1 jc1 pc1)
          wt2 jc2 pc2)
        (gdino_init_output_files ts).output_file_jpg = some pc2 := by
  intro ts wt1 wt2 jc1 pc1 jc2 pc2 fs
  have hne : (gdino_init_output_files ts).output_file_json ≠
      (gdino_init_output_files ts).output_file_jpg :=
    append_json_ne_jpg "output_location/location_gdino_" ts
  refine ⟨rfl, rfl, ?_, ?_⟩
  · rw [locate_objects_save, read_write_other _ _ _ _ hne, read_write_same]
  · rw [locate_objects_save, read_write_same]

/-! ## Theorem for C7 -/

/-- C7, evaluated at the failing input: with a previous run's unique
directory and description file already on disk, `LlavaDescriptor.run`'s
collision-avoidance loop does find the free name `…_1` and creates a
directory there — but the description artifact itself is written to the
bare timestamped `.txt` path, silently overwriting the existing file,
and nothing is created at the free name the loop produced. -/
theorem C7_artifact_not_at_free_name :
    llava_run_save "2025-01-01_12-00-00"
      ⟨[("output_descriptions/description_llava_2025-01-01_12-00-00.txt",
         "old description")],
       ["output_descriptions",
        "output_descriptions/description_llava_2025-01-01_12-00-00"]⟩
      "new description" =
      (⟨[("output_descriptions/description_llava_2025-01-01_12-00-00.txt",
          "new description")],
        ["output_descriptions/description_llava_2025-01-01_12-00-00_1",
         "output_descriptions",
         "output_descriptions/description_llava_2025-01-01_12-00-00"]⟩,
       "output_descriptions/description_llava_2025-01-01_12-00-00_1",
       "output_descriptions/description_llava_2025-01-01_12-00-00.txt") ∧
    read_file
      (llava_run_save "2025-01-01_12-00-00"
        ⟨[("output_descriptions/description_llava_2025-01-01_12-00-00.txt",
           "old description")],
         ["output_descriptions",
          "output_descriptions/description_llava_2025-01-01_12-00-00"]⟩
        "new description").1
      "output_descriptions/description_llava_2025-01-01_12-00-00.txt" =
      some "new description" ∧
    read_file
      (llava_run_save "2025-01-01_12-00-00"
        ⟨[("output_descriptions/description_llava_2025-01-01_12-00-00.txt",
           "old description")],
         ["output_descriptions",
          "output_descriptions/description_llava_2025-01-01_12-00-00"]⟩
        "new description").1
      "output_descriptions/description_llava_2025-01-01_12-00-00_1" =
      none := by
  refine ⟨by decide, by decide, by decide⟩
